import Mathlib

/-!
Shallow embedding of the consensus node in `src/src/node.rs` of the
repository, together with models of the modules the node uses (`state`,
`message`/`protocol`, `events`, `network`) which are not part of the
source tree and are therefore modelled from the specification.

Machine integers (`u64` heights, `u32` rounds) are modelled as `Nat`:
no arithmetic in the translated code can overflow at the values the
protocol reaches, and no claim concerns wrap-around behaviour.
The recursive self-dispatch calls of the Rust driver are modelled with an
explicit fuel parameter; every nested handler call consumes one unit of
fuel so that the definitions are structurally recursive and computable.
-/

/-- Modelled from the spec: validator identity is a public key (an abstract
value; we use `Nat`). -/
abbrev PublicKey := Nat

/-- Modelled from the spec: a content hash (abstract value). -/
abbrev Hash := Nat

/-- Modelled from the spec: a socket address (abstract value). -/
abbrev Addr := Nat

/-- Modelled from the spec: a protocol message (module `message`/`protocol`
is not in the source tree).  A raw message carries a message-type byte and
the union of the fields of the five protocol messages; the typed views
(`Propose::from_raw` etc.) simply read the relevant fields.  The
`verifies` field models whether `verify()` succeeds on this message. -/
structure Message where
  msgType : Nat
  height : Nat
  round : Nat
  hash : Hash
  prevHash : Hash
  time : Int
  addr : Addr
  publicKey : PublicKey
  verifies : Bool
deriving DecidableEq, Repr

/-- Modelled from the spec: wire message-type byte of Connect. -/
def connectType : Nat := 0
/-- Modelled from the spec: wire message-type byte of Propose. -/
def proposeType : Nat := 1
/-- Modelled from the spec: wire message-type byte of Prevote. -/
def prevoteType : Nat := 2
/-- Modelled from the spec: wire message-type byte of Precommit. -/
def precommitType : Nat := 3

/-- Modelled from the spec: `Prevote::new(height, round, hash, pk, sk)`
builds a signed (hence verifying) prevote message. -/
def Prevote.new (h r : Nat) (hs : Hash) (pk : PublicKey) : Message :=
  { msgType := prevoteType, height := h, round := r, hash := hs,
    prevHash := 0, time := 0, addr := 0, publicKey := pk, verifies := true }

/-- Modelled from the spec: `Precommit::new(height, round, hash, pk, sk)`. -/
def Precommit.new (h r : Nat) (hs : Hash) (pk : PublicKey) : Message :=
  { msgType := precommitType, height := h, round := r, hash := hs,
    prevHash := 0, time := 0, addr := 0, publicKey := pk, verifies := true }

/-- Modelled from the spec: `Propose::new(height, round, time, prev_hash,
pk, sk)`. -/
def Propose.new (h r : Nat) (t : Int) (ph : Hash) (pk : PublicKey) :
    Message :=
  { msgType := proposeType, height := h, round := r, hash := 0,
    prevHash := ph, time := t, addr := 0, publicKey := pk, verifies := true }

/-- Modelled from the spec: the content hash of a proposal, a function of
the canonical serialization; any computable function of the message fields
serves the model. -/
def hashOf (m : Message) : Hash :=
  Nat.pair m.msgType (Nat.pair m.height (Nat.pair m.round
    (Nat.pair m.prevHash m.publicKey)))

/-- Modelled from the spec: the per-height consensus state held by the
node (module `state` is not in the source tree).  Vote tallies are lists
of (round, hash, voter) triples; the proposal table maps (round, hash) to
the proposal message; `queued` is the future-message queue. -/
structure State where
  validators : List PublicKey
  height : Nat
  round : Nat
  lockRound : Option Nat
  prevHash : Hash
  prevTime : Int
  peers : List (PublicKey × Addr)
  proposes : List (Nat × Hash × Message)
  prevotes : List (Nat × Hash × PublicKey)
  precommits : List (Nat × Hash × PublicKey)
  queued : List Message
deriving DecidableEq, Repr

/-- Modelled from the spec: the quorum threshold Q = ⌊2n/3⌋ + 1. -/
def State.quorum (s : State) : Nat := 2 * s.validators.length / 3 + 1

/-- Modelled from the spec: `leader(round)` returns
`validators[(height + round) mod n]`. -/
def State.leader (s : State) (r : Nat) : PublicKey :=
  s.validators.getD ((s.height + r) % s.validators.length) 0

/-- Modelled from the spec: `queue(msg)` appends a future-height
message. -/
def State.queueMsg (s : State) (m : Message) : State :=
  { s with queued := s.queued ++ [m] }

/-- Modelled from the spec: `add_peer(key, addr)` inserts if absent and
returns true on insertion. -/
def State.add_peer (s : State) (k : PublicKey) (a : Addr) : State × Bool :=
  if s.peers.any (fun p => p.1 == k) then (s, false)
  else ({ s with peers := s.peers ++ [(k, a)] }, true)

/-- Number of prevotes recorded for (round, hash). -/
def State.prevoteCount (s : State) (r : Nat) (hs : Hash) : Nat :=
  (s.prevotes.filter (fun v => v.1 == r && v.2.1 == hs)).length

/-- Number of precommits recorded for (round, hash). -/
def State.precommitCount (s : State) (r : Nat) (hs : Hash) : Nat :=
  (s.precommits.filter (fun v => v.1 == r && v.2.1 == hs)).length

/-- Modelled from the spec: `add_prevote(round, hash, msg)` records the
vote (at most once per voter for this (round, hash)) and returns true iff
this vote brought the count for (round, hash) to ≥ Q and no quorum was
previously reached for this (round, hash). -/
def State.add_prevote (s : State) (r : Nat) (hs : Hash) (m : Message) :
    State × Bool :=
  if (r, hs, m.publicKey) ∈ s.prevotes then (s, false)
  else
    let before := s.prevoteCount r hs
    ({ s with prevotes := s.prevotes ++ [(r, hs, m.publicKey)] },
     decide (s.quorum ≤ before + 1 ∧ before < s.quorum))

/-- Modelled from the spec: `add_precommit(round, hash, msg)`, symmetric
to `add_prevote`. -/
def State.add_precommit (s : State) (r : Nat) (hs : Hash) (m : Message) :
    State × Bool :=
  if (r, hs, m.publicKey) ∈ s.precommits then (s, false)
  else
    let before := s.precommitCount r hs
    ({ s with precommits := s.precommits ++ [(r, hs, m.publicKey)] },
     decide (s.quorum ≤ before + 1 ∧ before < s.quorum))

/-- Modelled from the spec: `add_propose(round, msg)` stores the proposal
(idempotent for the same (round, hash)) and returns the proposal hash and
the released subset of the future-message queue, the messages whose height
equals `height + 1`. -/
def State.add_propose (s : State) (r : Nat) (m : Message) :
    State × Hash × List Message :=
  let hs := hashOf m
  let s1 :=
    if s.proposes.any (fun p => p.1 == r && p.2.1 == hs) then s
    else { s with proposes := s.proposes ++ [(r, hs, m)] }
  let mature := s1.queued.filter (fun q => q.height == s.height + 1)
  ({ s1 with queued := s1.queued.filter (fun q => q.height != s.height + 1) },
   hs, mature)

/-- Modelled from the spec: `lock_round(r)` sets
`lock_round := max(lock_round, r)`. -/
def State.lock_round (s : State) (r : Nat) : State :=
  { s with lockRound :=
      match s.lockRound with
      | none => some r
      | some l => some (max l r) }

/-- Modelled from the spec: `new_round()` increments the round counter and
preserves the lock. -/
def State.new_round (s : State) : State := { s with round := s.round + 1 }

/-- Modelled from the spec: `new_height(committed_hash)` increments the
height, resets the round to 0, clears the proposal and vote tables and the
lock, records `prev_hash := committed_hash`, and returns the subset of the
future-message queue whose height now equals the new `height + 1`. -/
def State.new_height (s : State) (hs : Hash) : State × List Message :=
  let h' := s.height + 1
  ({ s with height := h', round := 0, lockRound := none, prevHash := hs,
            proposes := [], prevotes := [], precommits := [],
            queued := s.queued.filter (fun q => q.height != h' + 1) },
   s.queued.filter (fun q => q.height == h' + 1))

/-- A pending timeout tag, identified by (height, round). -/
structure Timeout where
  height : Nat
  round : Nat
deriving DecidableEq, Repr

/-- The node of `node.rs`: key, consensus state, configuration scalars,
and — replacing the network and timer side effects of the missing
`network`/`events` modules — a log `sent` of messages the node has
broadcast and a log `scheduled` of timeouts it has registered with their
deadlines. -/
structure Node where
  publicKey : PublicKey
  state : State
  byzantine : Bool
  propose_timeout : Nat
  round_timeout : Nat
  sent : List Message
  scheduled : List (Timeout × Int)
deriving DecidableEq, Repr

/-- Modelled from the spec: `broadcast` sends the message to every known
peer; the model records the broadcast message in the `sent` log. -/
def Node.broadcast (n : Node) (m : Message) : Node :=
  { n with sent := n.sent ++ [m] }

/-- `is_leader`: `state.leader(state.round()) == public_key`
(node.rs lines 281-283). -/
def Node.is_leader (n : Node) : Bool :=
  n.state.leader n.state.round == n.publicKey

/-- `add_timeout` (node.rs lines 123-131): schedule a timeout tagged with
the current (height, round) at deadline
`state.prev_time() + round * round_timeout` milliseconds. -/
def Node.add_timeout (n : Node) : Node :=
  let ms := n.state.round * n.round_timeout
  let time := n.state.prevTime + (ms : Int)
  { n with scheduled :=
      n.scheduled ++ [({ height := n.state.height, round := n.state.round }, time)] }

/-- The proposal built by `make_propose` (node.rs lines 289-300): height 0
when byzantine, else `state.height() + 1`; the wall-clock timestamp
`get_time()` is ambient and modelled as 0, no handler reads it. -/
def mkProposeMsg (n : Node) : Message :=
  let h := if n.byzantine then 0 else n.state.height + 1
  Propose.new h n.state.round 0 n.state.prevHash n.publicKey

/-- `handle_connect` (node.rs lines 152-165): add the peer; on first
insertion reply with our own Connect (logged in `sent`). -/
def handle_connect (n : Node) (m : Message) : Node :=
  let pa := n.state.add_peer m.publicKey m.addr
  let n1 := { n with state := pa.1 }
  if pa.2 then
    { n1 with sent := n1.sent ++
        [{ msgType := connectType, height := 0, round := 0, hash := 0,
           prevHash := 0, time := 0, addr := 0, publicKey := n.publicKey,
           verifies := true }] }
  else n1

mutual

/-- `handle` (node.rs lines 133-150): verify unless already validated,
then dispatch on the message-type byte. -/
def handle : Nat → Node → Message → Bool → Node
  | 0, n, _, _ => n
  | fuel + 1, n, m, validated =>
    if !validated && !m.verifies then n
    else if m.msgType = connectType then handle_connect n m
    else if m.msgType = proposeType then handle_propose fuel n m
    else if m.msgType = prevoteType then handle_prevote fuel n m
    else if m.msgType = precommitType then handle_precommit fuel n m
    else n

/-- Re-dispatch a released queue of messages with `validated = true`
(the `for message in queue { self.handle(message, true) }` loops of
node.rs lines 203-205 and 269-271). -/
def handleList : Nat → Node → List Message → Node
  | _, n, [] => n
  | 0, n, _ :: _ => n
  | fuel + 1, n, m :: rest => handleList fuel (handle fuel n m true) rest

/-- `handle_propose` (node.rs lines 167-206): triage by height, reject on
prev-hash or leader mismatch, else store the proposal, broadcast and
self-dispatch a Prevote for its hash, then re-dispatch the released
queue. -/
def handle_propose : Nat → Node → Message → Node
  | 0, n, _ => n
  | fuel + 1, n, m =>
    if m.height > n.state.height + 1 then { n with state := n.state.queueMsg m }
    else if m.height < n.state.height + 1 then n
    else if m.prevHash ≠ n.state.prevHash then n
    else if m.publicKey ≠ n.state.leader m.round then n
    else
      let shq := n.state.add_propose m.round m
      let prevote := Prevote.new m.height m.round shq.2.1 n.publicKey
      let n2 := Node.broadcast { n with state := shq.1 } prevote
      handleList fuel (handle_prevote fuel n2 prevote) shq.2.2

/-- `handle_prevote` (node.rs lines 208-236): triage by height, record the
vote; on quorum lock the round, broadcast a Precommit and self-dispatch
it. -/
def handle_prevote : Nat → Node → Message → Node
  | 0, n, _ => n
  | fuel + 1, n, m =>
    if m.height > n.state.height + 1 then { n with state := n.state.queueMsg m }
    else if m.height < n.state.height + 1 then n
    else
      let sb := n.state.add_prevote m.round m.hash m
      let n1 := { n with state := sb.1 }
      if sb.2 then
        let n2 := { n1 with state := n1.state.lock_round m.round }
        let pc := Precommit.new m.height m.round m.hash n.publicKey
        handle_precommit fuel (Node.broadcast n2 pc) pc
      else n1

/-- `handle_precommit` (node.rs lines 238-274): triage by height, record
the vote; on quorum advance the height, propose if leader, re-dispatch the
matured queue, schedule the next timeout. -/
def handle_precommit : Nat → Node → Message → Node
  | 0, n, _ => n
  | fuel + 1, n, m =>
    if m.height > n.state.height + 1 then { n with state := n.state.queueMsg m }
    else if m.height < n.state.height + 1 then n
    else
      let sb := n.state.add_precommit m.round m.hash m
      let n1 := { n with state := sb.1 }
      if sb.2 then
        let sq := n1.state.new_height m.hash
        let n2 := { n1 with state := sq.1 }
        let n3 := if n2.is_leader then make_propose fuel n2 else n2
        Node.add_timeout (handleList fuel n3 sq.2)
      else n1

/-- `make_propose` (node.rs lines 285-303): build the proposal, broadcast
it and self-dispatch it through `handle_propose`. -/
def make_propose : Nat → Node → Node
  | 0, n => Node.broadcast n (mkProposeMsg n)
  | fuel + 1, n =>
    let p := mkProposeMsg n
    handle_propose fuel (Node.broadcast n p) p

end

/-- `handle_timeout` (node.rs lines 106-121): discard unless the tag
matches the current (height, round); else enter a new round, propose if
leader, and schedule the next timeout. -/
def handle_timeout (fuel : Nat) (n : Node) (t : Timeout) : Node :=
  if t.height ≠ n.state.height then n
  else if t.round ≠ n.state.round then n
  else
    let n1 := { n with state := n.state.new_round }
    let n2 := if n1.is_leader then make_propose fuel n1 else n1
    Node.add_timeout n2

/-- Modelled from the spec: the events the loop of `run` can poll (module
`events` is not in the source tree). -/
inductive Event where
  | Incoming (m : Message) : Event
  | Internal : Event
  | Fired (t : Timeout) : Event
  | Io : Event
  | Error : Event
  | Terminate : Event
deriving DecidableEq, Repr

/-- One dispatch of the `match self.events.poll()` arm of `run` (node.rs
lines 81-102): incoming messages enter `handle` unvalidated, timeouts
enter `handle_timeout`; `Internal`, `Io` and `Error` leave the consensus
state unchanged. -/
def handleEvent (fuel : Nat) (n : Node) (e : Event) : Node :=
  match e with
  | Event.Incoming m => handle fuel n m false
  | Event.Fired t => handle_timeout fuel n t
  | _ => n

/-- `run` (node.rs lines 75-104) after initialization, over an explicit
stream of polled events: each iteration first breaks if
`state.height() == 1000`, then polls one event; `Terminate` breaks. -/
def run (fuel : Nat) (n : Node) : List Event → Node
  | [] => n
  | e :: es =>
    if n.state.height = 1000 then n
    else
      match e with
      | Event.Terminate => n
      | _ => run fuel (handleEvent fuel n e) es

/-- A single-validator consensus state (n = 1, so Q = 1) at height 0. -/
def baseState : State :=
  { validators := [0], height := 0, round := 0, lockRound := none,
    prevHash := 0, prevTime := 0, peers := [], proposes := [],
    prevotes := [], precommits := [], queued := [] }

/-- A single-validator node holding `baseState`. -/
def baseNode : Node :=
  { publicKey := 0, state := baseState, byzantine := false,
    propose_timeout := 0, round_timeout := 100, sent := [], scheduled := [] }

/-- `baseNode` already locked at round 1. -/
def lockedNode : Node :=
  { baseNode with state := { baseState with lockRound := some 1 } }

/-- `baseNode` with the byzantine flag set. -/
def byzNode : Node := { baseNode with byzantine := true }

/-- `baseNode` at the loop bound height 1000. -/
def node1000 : Node :=
  { baseNode with state := { baseState with height := 1000 } }

/-- A two-validator node (keys 0 and 1) whose own key is 0. -/
def twoValNode : Node :=
  { baseNode with state := { baseState with validators := [0, 1] } }

/-- A two-validator node (self key 1) at height 999 holding one precommit
for the pending height 1000 and two queued height-1001 precommits: the
next matching precommit advances it from 999 straight to 1001 within a
single polled event. -/
def railNode : Node :=
  { publicKey := 1,
    state := { validators := [0, 1], height := 999, round := 0,
               lockRound := none, prevHash := 5, prevTime := 0,
               peers := [], proposes := [], prevotes := [],
               precommits := [(0, 6, 0)],
               queued := [Precommit.new 1001 0 8 0, Precommit.new 1001 0 8 1] },
    byzantine := false, propose_timeout := 0, round_timeout := 100,
    sent := [], scheduled := [] }

theorem State.add_prevote_lockRound (s : State) (r : Nat) (hs : Hash)
    (m : Message) : (s.add_prevote r hs m).1.lockRound = s.lockRound := by
  unfold State.add_prevote
  split <;> rfl

theorem State.add_precommit_height (s : State) (r : Nat) (hs : Hash)
    (m : Message) : (s.add_precommit r hs m).1.height = s.height := by
  unfold State.add_precommit
  split <;> rfl

/-- C3: each of the three vote/proposal handlers triages by height: a
message above `height + 1` is exactly appended to the future-message
queue with no other change, and a message below `height + 1` leaves the
node exactly unchanged. -/
theorem handlers_triage_by_height (f : Nat) (n : Node) (m : Message) :
    (n.state.height + 1 < m.height →
      handle_propose (f + 1) n m = { n with state := n.state.queueMsg m } ∧
      handle_prevote (f + 1) n m = { n with state := n.state.queueMsg m } ∧
      handle_precommit (f + 1) n m = { n with state := n.state.queueMsg m }) ∧
    (m.height < n.state.height + 1 →
      handle_propose (f + 1) n m = n ∧
      handle_prevote (f + 1) n m = n ∧
      handle_precommit (f + 1) n m = n) := by
  constructor
  · intro h
    refine ⟨?_, ?_, ?_⟩ <;>
      simp [handle_propose, handle_prevote, handle_precommit, h]
  · intro h
    have h' : ¬ (n.state.height + 1 < m.height) := by omega
    refine ⟨?_, ?_, ?_⟩ <;>
      simp [handle_propose, handle_prevote, handle_precommit, h, h']

/-- Witness for C3 at a concrete input: a height-5 message at a node of
height 0 is queued by `handle_propose`, and a height-0 message is
dropped unchanged. -/
theorem handlers_triage_by_height_witness :
    (handle_propose 1 baseNode (Prevote.new 5 0 7 0) =
      { baseNode with state := baseNode.state.queueMsg (Prevote.new 5 0 7 0) }) ∧
    handle_propose 1 baseNode (Prevote.new 0 0 7 0) = baseNode :=
  ⟨((handlers_triage_by_height 0 baseNode (Prevote.new 5 0 7 0)).1
      (by decide)).1,
   ((handlers_triage_by_height 0 baseNode (Prevote.new 0 0 7 0)).2
      (by decide)).1⟩

/-- C4: a Propose at exactly `height + 1` whose prev-hash differs from the
state's or whose signer is not the leader of its round is dropped: the
node is returned exactly unchanged (nothing stored, no prevote
emitted). -/
theorem handle_propose_rejects (f : Nat) (n : Node) (m : Message)
    (hh : m.height = n.state.height + 1)
    (hrej : m.prevHash ≠ n.state.prevHash ∨
            m.publicKey ≠ n.state.leader m.round) :
    handle_propose (f + 1) n m = n := by
  have h1 : ¬ (n.state.height + 1 < m.height) := by omega
  have h2 : ¬ (m.height < n.state.height + 1) := by omega
  rcases hrej with hr | hr
  · simp [handle_propose, h1, h2, hr]
  · by_cases hp : m.prevHash = n.state.prevHash
    · simp [handle_propose, h1, h2, hp, hr]
    · simp [handle_propose, h1, h2, hp]

/-- Witness for C4: on a two-validator node at height 0 the round-0
leader is key 0; a height-1 Propose signed by key 1 is dropped. -/
theorem handle_propose_rejects_witness :
    handle_propose 3 twoValNode (Propose.new 1 0 0 0 1) = twoValNode :=
  handle_propose_rejects 2 twoValNode (Propose.new 1 0 0 0 1) (by decide)
    (Or.inr (by decide))

/-- C5: a Timeout whose tag mismatches the current (height, round) in
either field leaves the node exactly unchanged; a matching timeout enters
a new round, proposes if the node is then the leader, and schedules the
next timeout. -/
theorem handle_timeout_filters (f : Nat) (n : Node) (t : Timeout) :
    ((t.height ≠ n.state.height ∨ t.round ≠ n.state.round) →
      handle_timeout f n t = n) ∧
    (t.height = n.state.height → t.round = n.state.round →
      handle_timeout f n t =
        Node.add_timeout
          (if Node.is_leader { n with state := n.state.new_round } then
            make_propose f { n with state := n.state.new_round }
          else { n with state := n.state.new_round })) := by
  constructor
  · intro h
    rcases h with h | h
    · simp [handle_timeout, h]
    · by_cases h2 : t.height = n.state.height
      · simp [handle_timeout, h2, h]
      · simp [handle_timeout, h2]
  · intro h1 h2
    simp [handle_timeout, h1, h2]

/-- Witness for C5: a timeout tagged with height 5 at a height-0 node is
discarded. -/
theorem handle_timeout_filters_witness :
    handle_timeout 1 baseNode { height := 5, round := 0 } = baseNode :=
  (handle_timeout_filters 1 baseNode { height := 5, round := 0 }).1
    (Or.inl (by decide))

/-- C1 (amended): at height `height + 1`, `handle_prevote` records the
vote; when recording completes a prevote quorum it updates the lock to
`max(lock_round, round)` per the State contract, broadcasts a Precommit
for (height, round, hash) and self-dispatches it synchronously through
`handle_precommit` before returning; when no quorum is completed the only
change is the recorded vote — the lock and the send log are untouched. -/
theorem handle_prevote_quorum (f : Nat) (n : Node) (m : Message)
    (hh : m.height = n.state.height + 1) :
    ((n.state.add_prevote m.round m.hash m).2 = false →
      handle_prevote (f + 1) n m =
        { n with state := (n.state.add_prevote m.round m.hash m).1 } ∧
      (handle_prevote (f + 1) n m).state.lockRound = n.state.lockRound ∧
      (handle_prevote (f + 1) n m).sent = n.sent) ∧
    ((n.state.add_prevote m.round m.hash m).2 = true →
      handle_prevote (f + 1) n m =
        handle_precommit f
          (Node.broadcast
            { n with state :=
                ((n.state.add_prevote m.round m.hash m).1).lock_round m.round }
            (Precommit.new m.height m.round m.hash n.publicKey))
          (Precommit.new m.height m.round m.hash n.publicKey) ∧
      (((n.state.add_prevote m.round m.hash m).1).lock_round m.round).lockRound =
        (match n.state.lockRound with
         | none => some m.round
         | some l => some (max l m.round))) := by
  have h1 : ¬ (n.state.height + 1 < m.height) := by omega
  have h2 : ¬ (m.height < n.state.height + 1) := by omega
  constructor
  · intro hq
    have he : handle_prevote (f + 1) n m =
        { n with state := (n.state.add_prevote m.round m.hash m).1 } := by
      simp [handle_prevote, h1, h2, hq]
    refine ⟨he, ?_, ?_⟩
    · rw [he]
      exact State.add_prevote_lockRound n.state m.round m.hash m
    · rw [he]
  · intro hq
    constructor
    · simp [handle_prevote, h1, h2, hq]
    · simp [State.lock_round, State.add_prevote_lockRound]

/-- Witness for C1 at a concrete input: at a one-validator node (Q = 1)
one prevote completes the quorum and `handle_prevote` reduces to the
synchronous self-dispatch of the precommit. -/
theorem handle_prevote_quorum_witness :
    (baseNode.state.add_prevote 0 7 (Prevote.new 1 0 7 0)).2 = true ∧
    handle_prevote 1 baseNode (Prevote.new 1 0 7 0) =
      handle_precommit 0
        (Node.broadcast
          { baseNode with state :=
              ((baseNode.state.add_prevote 0 7 (Prevote.new 1 0 7 0)).1).lock_round 0 }
          (Precommit.new 1 0 7 0))
        (Precommit.new 1 0 7 0) := by
  refine ⟨by decide, ?_⟩
  exact ((handle_prevote_quorum 0 baseNode (Prevote.new 1 0 7 0) rfl).2
    (by decide)).1

/-- Counterexample to C1 as stated: a node already locked at round 1
receives a quorum-completing prevote for round 0; the code sets the lock
to `max(1, 0) = 1`, not to the prevote's round 0 as the claim states. -/
theorem handle_prevote_lock_counterexample :
    (lockedNode.state.add_prevote 0 7 (Prevote.new 1 0 7 0)).2 = true ∧
    (handle_prevote 1 lockedNode (Prevote.new 1 0 7 0)).state.lockRound ≠
      some 0 ∧
    (handle_prevote 1 lockedNode (Prevote.new 1 0 7 0)).state.lockRound =
      some 1 := by decide

/-- C2: at height `height + 1`, `handle_precommit` records the vote; when
recording completes a precommit quorum it commits through `new_height`,
proposes if it is then the leader, re-dispatches the matured queue with
`validated = true` (the `handleList` loop) and schedules the next round
timeout; when no quorum is completed the only change is the recorded
vote — height, send log and timeout log are untouched. -/
theorem handle_precommit_quorum (f : Nat) (n : Node) (m : Message)
    (hh : m.height = n.state.height + 1) :
    ((n.state.add_precommit m.round m.hash m).2 = false →
      handle_precommit (f + 1) n m =
        { n with state := (n.state.add_precommit m.round m.hash m).1 } ∧
      (handle_precommit (f + 1) n m).state.height = n.state.height ∧
      (handle_precommit (f + 1) n m).sent = n.sent ∧
      (handle_precommit (f + 1) n m).scheduled = n.scheduled) ∧
    ((n.state.add_precommit m.round m.hash m).2 = true →
      handle_precommit (f + 1) n m =
        Node.add_timeout
          (handleList f
            (if Node.is_leader
                { n with state :=
                    (((n.state.add_precommit m.round m.hash m).1).new_height
                      m.hash).1 } then
              make_propose f
                { n with state :=
                    (((n.state.add_precommit m.round m.hash m).1).new_height
                      m.hash).1 }
            else
              { n with state :=
                  (((n.state.add_precommit m.round m.hash m).1).new_height
                    m.hash).1 })
            (((n.state.add_precommit m.round m.hash m).1).new_height
              m.hash).2)) := by
  have h1 : ¬ (n.state.height + 1 < m.height) := by omega
  have h2 : ¬ (m.height < n.state.height + 1) := by omega
  constructor
  · intro hq
    have he : handle_precommit (f + 1) n m =
        { n with state := (n.state.add_precommit m.round m.hash m).1 } := by
      simp [handle_precommit, h1, h2, hq]
    refine ⟨he, ?_, ?_, ?_⟩ <;> rw [he]
    exact State.add_precommit_height n.state m.round m.hash m
  · intro hq
    simp [handle_precommit, h1, h2, hq]

/-- Witness for C2 at a concrete input: at a one-validator node one
precommit completes the quorum; the node commits to height 1 and a
timeout for the new height is scheduled. -/
theorem handle_precommit_quorum_witness :
    (baseNode.state.add_precommit 0 7 (Precommit.new 1 0 7 0)).2 = true ∧
    (handle_precommit 2 baseNode (Precommit.new 1 0 7 0)).state.height = 1 ∧
    (handle_precommit 2 baseNode (Precommit.new 1 0 7 0)).scheduled =
      [({ height := 1, round := 0 }, 0)] := by
  refine ⟨by decide, ?_, ?_⟩ <;>
    rw [(handle_precommit_quorum 1 baseNode (Precommit.new 1 0 7 0) rfl).2
      (by decide)] <;> decide

/-- C6: a message entering `handle` with `validated = false` is dropped
with the node exactly unchanged when its signature does not verify, and a
message entering with `validated = true` is dispatched on its type byte
without any verification check. -/
theorem handle_verification (f : Nat) (n : Node) (m : Message) :
    (m.verifies = false → handle (f + 1) n m false = n) ∧
    (handle (f + 1) n m true =
      if m.msgType = connectType then handle_connect n m
      else if m.msgType = proposeType then handle_propose f n m
      else if m.msgType = prevoteType then handle_prevote f n m
      else if m.msgType = precommitType then handle_precommit f n m
      else n) := by
  constructor
  · intro hv
    simp [handle, hv]
  · simp [handle]

/-- Witness for C6: an unverified prevote fed with `validated = false`
leaves the node unchanged, while the same unverified prevote fed with
`validated = true` is processed (it completes the one-validator quorum
and sets the lock). -/
theorem handle_verification_witness :
    handle 2 baseNode { Prevote.new 1 0 7 0 with verifies := false } false =
      baseNode ∧
    (handle 2 baseNode { Prevote.new 1 0 7 0 with verifies := false }
      true).state.lockRound = some 0 := by
  have h := handle_verification 1 baseNode
    { Prevote.new 1 0 7 0 with verifies := false }
  refine ⟨h.1 rfl, ?_⟩
  rw [h.2]
  decide

/-- C7: every timeout the node schedules is tagged with the current
(height, round) and its deadline is `prev_time + round * round_timeout`
milliseconds (linear in the round, not exponential); and on a matching
round-timeout the node first advances the round and proposes if it is the
new leader, and only then schedules the next timeout by this formula. -/
theorem add_timeout_formula (f : Nat) (n : Node) (t : Timeout) :
    (Node.add_timeout n).scheduled =
      n.scheduled ++
        [({ height := n.state.height, round := n.state.round },
          n.state.prevTime + ((n.state.round * n.round_timeout : Nat) : Int))] ∧
    (t.height = n.state.height → t.round = n.state.round →
      handle_timeout f n t =
        Node.add_timeout
          (if Node.is_leader { n with state := n.state.new_round } then
            make_propose f { n with state := n.state.new_round }
          else { n with state := n.state.new_round })) := by
  constructor
  · rfl
  · intro h1 h2
    simp [handle_timeout, h1, h2]

/-- Witness for C7: at the one-validator node the initial timeout has tag
(0, 0) and deadline 0; after a matching round timeout fires the next
scheduled timeout has tag (0, 1) and deadline 0 + 1 * 100 = 100. -/
theorem add_timeout_formula_witness :
    (Node.add_timeout baseNode).scheduled = [({ height := 0, round := 0 }, 0)] ∧
    (handle_timeout 2 baseNode { height := 0, round := 0 }).scheduled =
      [({ height := 0, round := 1 }, 100)] := by
  have h := add_timeout_formula 2 baseNode { height := 0, round := 0 }
  refine ⟨h.1.trans (by decide), ?_⟩
  rw [h.2 rfl rfl]
  decide

/-- C8 (amended): with the byzantine flag set, `make_propose` builds the
proposal with height 0; the byzantine node then drops its own malformed
proposal in the stale-height branch — the flag only suppresses a log
line — so the self-dispatch stores nothing and emits no prevote, and any
node receiving the height-0 proposal likewise drops it unchanged. -/
theorem make_propose_byzantine (f : Nat) (n : Node)
    (hb : n.byzantine = true) :
    (mkProposeMsg n).height = 0 ∧
    (∀ fuel, make_propose fuel n = Node.broadcast n (mkProposeMsg n)) ∧
    (∀ n' : Node, handle_propose (f + 1) n' (mkProposeMsg n) = n') := by
  have hp : (mkProposeMsg n).height = 0 := by
    simp [mkProposeMsg, Propose.new, hb]
  refine ⟨hp, ?_, ?_⟩
  · intro fuel
    cases fuel with
    | zero => rfl
    | succ g =>
      cases g with
      | zero => rfl
      | succ k =>
        simp [make_propose, handle_propose, Node.broadcast, hp]
  · intro n'
    simp [handle_propose, hp]

/-- Witness for C8 (amended) at a concrete input: the byzantine
one-validator node proposes height 0 and its self-dispatch amounts to the
broadcast alone. -/
theorem make_propose_byzantine_witness :
    (mkProposeMsg byzNode).height = 0 ∧
    make_propose 5 byzNode = Node.broadcast byzNode (mkProposeMsg byzNode) :=
  ⟨(make_propose_byzantine 0 byzNode rfl).1,
   (make_propose_byzantine 0 byzNode rfl).2.1 5⟩

/-- Counterexample to C8 as stated: the byzantine node does NOT accept
its own height-0 proposal — after `make_propose` the proposal table is
empty and no prevote was emitted. -/
theorem byzantine_self_accept_counterexample :
    byzNode.byzantine = true ∧
    (mkProposeMsg byzNode).height = 0 ∧
    (make_propose 5 byzNode).state.proposes = [] ∧
    (make_propose 5 byzNode).sent.filter
      (fun m => m.msgType == prevoteType) = [] := by decide

/-- C9 (amended): an iteration of `run` that begins with height exactly
1000 exits before polling another event. -/
theorem run_exits_at_bound (fuel : Nat) (n : Node) (e : Event)
    (es : List Event) (h : n.state.height = 1000) :
    run fuel n (e :: es) = n := by
  simp [run, h]

/-- Witness for C9 (amended): a node at height 1000 exits immediately. -/
theorem run_exits_at_bound_witness :
    run 1 node1000 [Event.Internal] = node1000 :=
  run_exits_at_bound 1 node1000 Event.Internal [] rfl

/-- Counterexample to C9 as stated: one polled event can advance the
height from 999 straight to 1001 (the incoming precommit completes the
quorum for height 1000 and the drained future-height precommits complete
the quorum for height 1001), so the `height == 1000` check never fires
and the loop handles a further event at height 1001 ≥ 1000, queueing
it. -/
theorem run_bound_overshoot_counterexample :
    (run 12 railNode [Event.Incoming (Precommit.new 1000 0 6 1)]).state.height =
      1001 ∧
    (run 12 railNode
      [Event.Incoming (Precommit.new 1000 0 6 1),
       Event.Incoming (Prevote.new 5000 0 9 0)]).state.queued =
      [Prevote.new 5000 0 9 0] := by decide

/-- C10: a message whose type byte is none of Connect (0), Propose (1),
Prevote (2) or Precommit (3) — including the reserved Commit type 4 —
leaves the node exactly unchanged under `handle`, whatever the
`validated` flag and fuel. -/
theorem handle_unknown_type (fuel : Nat) (n : Node) (m : Message)
    (v : Bool) (h0 : m.msgType ≠ connectType) (h1 : m.msgType ≠ proposeType)
    (h2 : m.msgType ≠ prevoteType) (h3 : m.msgType ≠ precommitType) :
    handle fuel n m v = n := by
  cases fuel with
  | zero => rfl
  | succ f =>
    simp [handle, h0, h1, h2, h3]

/-- Witness for C10: a verified reserved-Commit-type (4) message leaves
the node unchanged. -/
theorem handle_unknown_type_witness :
    handle 3 baseNode { Prevote.new 1 0 7 0 with msgType := 4 } false =
      baseNode :=
  handle_unknown_type 3 baseNode { Prevote.new 1 0 7 0 with msgType := 4 }
    false (by decide) (by decide) (by decide) (by decide)
